import Mathlib

/-!
# Verification of the parroton-bot client layer

Shallow embedding of the repository's two source modules:

* `src/core/contracts/TonJettonTonStrategy.ts` — the cell codec usage, the
  opcode/exit-code constant tables and every message builder of the
  `TonJettonTonStrategy` and `Vault` contract proxies;
* `src/vault-extra-rewards-distribution.ts` — the per-vault extra-rewards
  distribution orchestrator, modelled as a trace-producing function whose
  external collaborators (`wait`, `prepareExtraRewards`, `distributeRewards`,
  `DistributionPool.getPoolExtraData`, the configured vault list) are abstract
  parameters.

Cells are modelled as ordered bit lists plus ordered child-cell lists, and the
`@ton/core` builder primitives as `Except`-valued functions that fail exactly
where the TypeScript library throws: a value out of range for its field width
(`rangeError`), the 1023-bit payload budget (`overflow`), and the 4-reference
budget (`tooManyRefs`).
-/

set_option maxRecDepth 16000

/-- Error kinds raised by the cell builder, mirroring the exceptions thrown by
the `@ton/core` `Builder`: a range error for a value that does not fit its
declared field width, an overflow of the 1023-bit payload budget, and the
four-reference limit. -/
inductive BuildError where
  | rangeError
  | overflow
  | tooManyRefs
  deriving DecidableEq

/-- A sealed cell: an ordered bit payload plus ordered child-cell references. -/
inductive Cell where
  | mk (bits : List Bool) (refs : List Cell)

/-- The bit payload of a sealed cell. -/
def Cell.bits : Cell → List Bool
  | .mk b _ => b

/-- The child references of a sealed cell. -/
def Cell.refs : Cell → List Cell
  | .mk _ r => r

/-- A mutable staging object accumulating bit fields and child references;
`beginCell` starts one and `Builder.endCell` seals it. -/
structure Builder where
  bits : List Bool
  refs : List Cell

/-- The empty builder returned by `beginCell()` in `@ton/core`. -/
def beginCell : Builder := ⟨[], []⟩

/-- Big-endian (most significant bit first) fixed-width binary encoding of a
natural number, as the cell format stores unsigned integers. -/
def natToBits : Nat → Nat → List Bool
  | _, 0 => []
  | v, w + 1 => natToBits (v / 2) w ++ [v % 2 == 1]

/-- Big-endian decoding of a bit list back to a natural number. -/
def bitsToNat (l : List Bool) : Nat :=
  l.foldl (fun acc b => 2 * acc + (if b then 1 else 0)) 0

/-- Reading `width` bits starting at bit `offset` of a cell payload, as the
mirror-image parser of the cell codec does. -/
def sliceUint (bits : List Bool) (offset width : Nat) : Nat :=
  bitsToNat ((bits.drop offset).take width)

/-- Number of 8-bit groups the coin encoding uses for a value: the number of
byte thresholds `2 ^ (8 * i)`, `i < 16`, that the value reaches — zero for
zero, otherwise the byte length of the value's binary representation (for all
values the encoder accepts). -/
def bytesNeeded (v : Nat) : Nat :=
  (List.range 16).countP (fun i => 2 ^ (8 * i) ≤ v)

/-- The length-prefixed variable coin encoding (`storeCoins`): a 4-bit byte
count followed by the value in that many 8-bit groups. -/
def coinsBits (v : Nat) : List Bool :=
  natToBits (bytesNeeded v) 4 ++ natToBits v (8 * bytesNeeded v)

/-- An account address: a workchain id plus a 256-bit hash. -/
structure Address where
  workchain : Int
  hash : Nat

/-- The fixed-width 267-bit standard address encoding written by
`storeAddress`: tag bits `10`, anycast bit `0`, 8-bit workchain, 256-bit hash. -/
def addrBits (a : Address) : List Bool :=
  [true, false, false] ++ natToBits (a.workchain % 256).toNat 8 ++
    natToBits (a.hash % 2 ^ 256) 256

/-- `storeUint(value, width)`: appends `value` in exactly `width` bits; fails
with a range error when the value is negative or needs more than `width` bits,
and with an overflow when the 1023-bit budget would be exceeded. -/
def Builder.storeUint (b : Builder) (value : Int) (width : Nat) : Except BuildError Builder :=
  if value < 0 ∨ (2 : Int) ^ width ≤ value then .error .rangeError
  else if 1023 < b.bits.length + width then .error .overflow
  else .ok ⟨b.bits ++ natToBits value.toNat width, b.refs⟩

/-- `storeCoins(value)`: appends the variable-length coin encoding; fails with
a range error for negative values or values of 16 or more bytes. -/
def Builder.storeCoins (b : Builder) (value : Int) : Except BuildError Builder :=
  if value < 0 ∨ (2 : Int) ^ 120 ≤ value then .error .rangeError
  else if 1023 < b.bits.length + (coinsBits value.toNat).length then .error .overflow
  else .ok ⟨b.bits ++ coinsBits value.toNat, b.refs⟩

/-- `storeAddress(addr)`: appends the 267-bit standard address encoding. -/
def Builder.storeAddress (b : Builder) (a : Address) : Except BuildError Builder :=
  if 1023 < b.bits.length + 267 then .error .overflow
  else .ok ⟨b.bits ++ addrBits a, b.refs⟩

/-- `storeBit(b)`: appends a single bit. -/
def Builder.storeBit (b : Builder) (x : Bool) : Except BuildError Builder :=
  if 1023 < b.bits.length + 1 then .error .overflow
  else .ok ⟨b.bits ++ [x], b.refs⟩

/-- `storeRef(cell)`: appends an owned child cell; fails once four references
are already attached. -/
def Builder.storeRef (b : Builder) (c : Cell) : Except BuildError Builder :=
  if 4 ≤ b.refs.length then .error .tooManyRefs
  else .ok ⟨b.bits, b.refs ++ [c]⟩

/-- `endCell()`: seals the builder into an immutable cell. -/
def Builder.endCell (b : Builder) : Cell := .mk b.bits b.refs

/-- Whether a builder chain produced a sealed cell rather than an error. -/
def isOk : Except BuildError Cell → Bool
  | .ok _ => true
  | .error _ => false

/-- The bit payload of a successfully built cell (empty on error). -/
def bodyBits : Except BuildError Cell → List Bool
  | .ok c => c.bits
  | .error _ => []

/-- The child references of a successfully built cell (empty on error). -/
def bodyRefs : Except BuildError Cell → List Cell
  | .ok c => c.refs
  | .error _ => []

/-- The bit payload of a cell's first child reference (empty when absent). -/
def firstRefBits (c : Cell) : List Bool :=
  (c.refs.headD (.mk [] [])).bits

/-- A value representable as an unsigned integer of the given bit width. -/
abbrev fitsUint (v : Int) (w : Nat) : Prop := 0 ≤ v ∧ v < (2 : Int) ^ w

/-- A value representable by the variable coin encoding. -/
abbrev fitsCoins (v : Int) : Prop := 0 ≤ v ∧ v < (2 : Int) ^ 120

theorem natToBits_length (v w : Nat) : (natToBits v w).length = w := by
  induction w generalizing v with
  | zero => rfl
  | succ w ih => simp [natToBits, ih]

theorem bitsToNat_concat (l : List Bool) (b : Bool) :
    bitsToNat (l ++ [b]) = 2 * bitsToNat l + (if b then 1 else 0) := by
  simp [bitsToNat, List.foldl_append]

theorem bitsToNat_natToBits (w : Nat) :
    ∀ v : Nat, v < 2 ^ w → bitsToNat (natToBits v w) = v := by
  induction w with
  | zero =>
    intro v hv
    interval_cases v
    rfl
  | succ w ih =>
    intro v hv
    have hpow : 2 ^ (w + 1) = 2 ^ w * 2 := pow_succ 2 w
    have hdiv : v / 2 < 2 ^ w := by omega
    have : natToBits v (w + 1) = natToBits (v / 2) w ++ [v % 2 == 1] := rfl
    rw [this, bitsToNat_concat, ih _ hdiv]
    rcases Nat.mod_two_eq_zero_or_one v with h | h <;> simp [h] <;> omega

theorem sliceUint_at (pre rest : List Bool) (v w n : Nat)
    (hn : pre.length = n) (h : v < 2 ^ w) :
    sliceUint (pre ++ (natToBits v w ++ rest)) n w = v := by
  unfold sliceUint
  rw [List.drop_left' hn, List.take_left' (natToBits_length v w),
    bitsToNat_natToBits _ _ h]

theorem sliceUint_zero (rest : List Bool) (v w : Nat) (h : v < 2 ^ w) :
    sliceUint (natToBits v w ++ rest) 0 w = v := by
  have := sliceUint_at [] rest v w 0 rfl h
  simpa using this

theorem toNat_lt_of_int_lt {v : Int} {w : Nat} (h : v < (2 : Int) ^ w) :
    v.toNat < 2 ^ w := by
  have hcast : (2 : Int) ^ w = ((2 ^ w : Nat) : Int) := by push_cast; ring
  rw [hcast] at h
  have hp : 0 < 2 ^ w := pow_pos (by norm_num) w
  omega

theorem bytesNeeded_le {v : Nat} (h : v < 2 ^ 120) : bytesNeeded v ≤ 15 := by
  unfold bytesNeeded
  rw [List.range_succ, List.countP_append]
  have h15 : List.countP (fun i => decide (2 ^ (8 * i) ≤ v)) [15] = 0 := by
    rw [List.countP_singleton]
    simp only [decide_eq_true_eq]
    rw [if_neg (by omega)]
  have hlen : List.countP (fun i => decide (2 ^ (8 * i) ≤ v)) (List.range 15) ≤ 15 := by
    have h2 : List.countP (fun i => decide (2 ^ (8 * i) ≤ v)) (List.range 15) ≤
        (List.range 15).length := List.countP_le_length _
    simpa using h2
  omega

theorem coinsBits_length (v : Nat) :
    (coinsBits v).length = 4 + 8 * bytesNeeded v := by
  simp [coinsBits, natToBits_length]

theorem coinsBits_length_le {v : Nat} (h : v < 2 ^ 120) :
    (coinsBits v).length ≤ 124 := by
  have := bytesNeeded_le h
  rw [coinsBits_length]
  omega

theorem storeUint_ok {b : Builder} {v : Int} {w : Nat}
    (h1 : 0 ≤ v) (h2 : v < (2 : Int) ^ w) (h3 : b.bits.length + w ≤ 1023) :
    b.storeUint v w = .ok ⟨b.bits ++ natToBits v.toNat w, b.refs⟩ := by
  unfold Builder.storeUint
  rw [if_neg (by push_neg; exact ⟨h1, h2⟩), if_neg (by omega)]

theorem storeCoins_ok {b : Builder} {v : Int}
    (h1 : 0 ≤ v) (h2 : v < (2 : Int) ^ 120) (h3 : b.bits.length + 124 ≤ 1023) :
    b.storeCoins v = .ok ⟨b.bits ++ coinsBits v.toNat, b.refs⟩ := by
  have hlen : (coinsBits v.toNat).length ≤ 124 :=
    coinsBits_length_le (toNat_lt_of_int_lt h2)
  unfold Builder.storeCoins
  rw [if_neg (by push_neg; exact ⟨h1, h2⟩), if_neg (by omega)]

theorem storeAddress_ok {b : Builder} {a : Address}
    (h3 : b.bits.length + 267 ≤ 1023) :
    b.storeAddress a = .ok ⟨b.bits ++ addrBits a, b.refs⟩ := by
  unfold Builder.storeAddress
  rw [if_neg (by omega)]

theorem storeBit_ok {b : Builder} {x : Bool}
    (h3 : b.bits.length + 1 ≤ 1023) :
    b.storeBit x = .ok ⟨b.bits ++ [x], b.refs⟩ := by
  unfold Builder.storeBit
  rw [if_neg (by omega)]

theorem storeRef_ok {b : Builder} {c : Cell}
    (h : b.refs.length ≤ 3) :
    b.storeRef c = .ok ⟨b.bits, b.refs ++ [c]⟩ := by
  unfold Builder.storeRef
  rw [if_neg (by omega)]

theorem ok_bind {α β : Type} (a : α) (f : α → Except BuildError β) :
    (Except.ok a : Except BuildError α).bind f = f a := rfl

theorem error_bind {α β : Type} (e : BuildError) (f : α → Except BuildError β) :
    (Except.error e : Except BuildError α).bind f = .error e := rfl

theorem addrBits_length (a : Address) : (addrBits a).length = 267 := by
  simp [addrBits, natToBits_length]

/-! ## Constant tables of `TonJettonTonStrategy.ts` -/

/-- Field layout of the strategy-side `Opcodes` table, in source order. -/
structure StrategyOpcodes where
  transfer_notification : Nat
  internal_transfer : Nat
  excesses : Nat
  transfer : Nat
  set_deposit_lp_wallet_address : Nat
  set_jetton_wallet_address : Nat
  reinvest : Nat

/-- The `Opcodes` constant table exported next to `TonJettonTonStrategy`. -/
def Opcodes : StrategyOpcodes :=
  ⟨0x7362d09c, 0x178d4519, 0xd53276db, 0xf8a7ea5, 0x7719b84f, 0x288b5223, 0x812d4e3⟩

/-- Field layout of `Vault.OPS`, in source order. -/
structure VaultOps where
  deposit : Nat
  withdraw : Nat
  init : Nat
  reinvest : Nat
  complete_reinvest : Nat
  withdraw_management_fee : Nat
  set_strategy_address : Nat
  set_management_fee_rate : Nat
  set_is_locked : Nat
  transfer_notification : Nat
  internal_transfer : Nat
  burn_notification : Nat
  excesses : Nat
  transfer_bounce_invalid_request : Nat
  transfer : Nat

/-- The `Vault.OPS` constant table (source literals written with digit
separators, e.g. `0x95_db_9d_39`). -/
def Vault.OPS : VaultOps :=
  ⟨0x95db9d39, 0xb5de5f9e, 0xc674e474, 0x812d4e3, 0x973280f5, 0xef9e917b,
   0xa3d7611f, 0xc25ffa5f, 0xe2cde084, 0x7362d09c, 0x178d4519, 0x7bdd97de,
   0xd53276db, 0x19727ea8, 0xf8a7ea5⟩

/-- Field layout of `Vault.EXIT_CODES`, in source order. -/
structure VaultExitCodes where
  WRONG_OP : Nat
  WRONG_WORKCHAIN : Nat
  INVALID_AMOUNT : Nat
  INVALID_DEPOSIT_TOKEN : Nat
  INSUFFICIENT_GAS : Nat
  INVALID_CALLER : Nat
  ZERO_OUTPUT : Nat
  INSUFFICIENT_LP_BALANCE : Nat
  INSUFFICIENT_LP_AMOUNT : Nat
  INSUFFICIENT_REWARDS_BALANCE : Nat
  INVALID_REINVEST_SENDER : Nat
  WRONG_MANAGER_OP : Nat
  INSUFFICIENT_MANAGEMENT_FEE : Nat
  INSUFFICIENT_SHARES_BALANCE : Nat
  MANAGEMENT_FEE_RATE_OUT_OF_BOUNDS : Nat

/-- The `Vault.EXIT_CODES` constant table. -/
def Vault.EXIT_CODES : VaultExitCodes :=
  ⟨80, 81, 82, 83, 84, 85, 86, 87, 88, 89, 90, 91, 92, 93, 94⟩

/-- The `Vault.MANAGEMENT_FEE_PRECISION` constant (`10_000n`). -/
def Vault.MANAGEMENT_FEE_PRECISION : Int := 10000

/-! ## Options records of the message builders, field-for-field from the
TypeScript `opts` parameter types (`queryId?: number` becomes `Option Int`,
`bigint`/`number` fields become `Int`). -/

/-- Options of `TonJettonTonStrategy.sendReinvest`. -/
structure StrategyReinvestOpts where
  value : Int
  totalReward : Int
  amountToSwap : Int
  limit : Int
  tonTargetBalance : Int
  jettonTargetBalance : Int
  deadline : Int
  queryId : Option Int

/-- Options of the strategy's two wallet-address setters. -/
structure SetWalletAddressOpts where
  value : Int
  walletAddress : Address
  queryId : Option Int

/-- Options of `Vault.sendDepositNotification`. -/
structure DepositNotificationOpts where
  jettonAmount : Int
  fromAddress : Address
  value : Int
  queryId : Option Int

/-- Options of `Vault.sendReinvest`. -/
structure VaultReinvestOpts where
  value : Int
  totalReward : Int
  amountToSwap : Int
  limit : Int
  tonTargetBalance : Int
  depositFee : Int
  depositFwdFee : Int
  transferFee : Int
  jettonTargetBalance : Int
  deadline : Int
  queryId : Option Int

/-- Options of `Vault.sendSetStrategyAddress`. -/
structure SetStrategyAddressOpts where
  value : Int
  strategyAddress : Address
  queryId : Option Int

/-- Options of `Vault.sendWithdrawManagementFee`. -/
structure WithdrawManagementFeeOpts where
  value : Int
  receiver : Address
  amount : Int
  queryId : Option Int

/-- Options of `Vault.sendSetIsLocked`. -/
structure SetIsLockedOpts where
  value : Int
  isLocked : Int
  queryId : Option Int

/-- Options of `Vault.sendSetManagementFeeRate`. -/
structure SetManagementFeeRateOpts where
  value : Int
  managementFeeRate : Int
  queryId : Option Int

/-! ## Message builders

Each function produces the message body cell the TypeScript method passes to
`provider.internal` (the attached `value` and send mode do not affect the body
and are not modelled beyond the `value` field of the options record). -/

/-- Body of `TonJettonTonStrategy.sendReinvest`: the outer cell stores the
coin-encoded `totalReward` and one child reference; the child cell stores the
`reinvest` opcode, query id, `amountToSwap`, `limit`, `deadline`, and the two
target balances. -/
def TonJettonTonStrategy.sendReinvest (opts : StrategyReinvestOpts) : Except BuildError Cell :=
  ((beginCell.storeUint (Opcodes.reinvest : Int) 32).bind fun b =>
   (b.storeUint (opts.queryId.getD 0) 64).bind fun b =>
   (b.storeCoins opts.amountToSwap).bind fun b =>
   (b.storeCoins opts.limit).bind fun b =>
   (b.storeUint opts.deadline 32).bind fun b =>
   (b.storeCoins opts.tonTargetBalance).bind fun b =>
   (b.storeCoins opts.jettonTargetBalance).bind fun b =>
   .ok b.endCell).bind fun inner =>
  (beginCell.storeCoins opts.totalReward).bind fun b =>
  (b.storeRef inner).bind fun b =>
  .ok b.endCell

/-- Body of `TonJettonTonStrategy.sendSetJettonWalletAddress`. -/
def TonJettonTonStrategy.sendSetJettonWalletAddress (opts : SetWalletAddressOpts) : Except BuildError Cell :=
  (beginCell.storeUint (Opcodes.set_jetton_wallet_address : Int) 32).bind fun b =>
  (b.storeUint (opts.queryId.getD 0) 64).bind fun b =>
  (b.storeAddress opts.walletAddress).bind fun b =>
  .ok b.endCell

/-- Body of `TonJettonTonStrategy.sendSetDepositLpWalletAddress`. -/
def TonJettonTonStrategy.sendSetDepositLpWalletAddress (opts : SetWalletAddressOpts) : Except BuildError Cell :=
  (beginCell.storeUint (Opcodes.set_deposit_lp_wallet_address : Int) 32).bind fun b =>
  (b.storeUint (opts.queryId.getD 0) 64).bind fun b =>
  (b.storeAddress opts.walletAddress).bind fun b =>
  .ok b.endCell

/-- The deposit transfer payload `Vault.prepareDepositPayload`: a cell holding
only the 32-bit `deposit` opcode. -/
def Vault.prepareDepositPayload : Except BuildError Cell :=
  (beginCell.storeUint (Vault.OPS.deposit : Int) 32).bind fun b =>
  .ok b.endCell

/-- Body of `Vault.sendDepositNotification`. -/
def Vault.sendDepositNotification (opts : DepositNotificationOpts) : Except BuildError Cell :=
  Vault.prepareDepositPayload.bind fun transferPayload =>
  (beginCell.storeUint (Vault.OPS.transfer_notification : Int) 32).bind fun b =>
  (b.storeUint (opts.queryId.getD 0) 64).bind fun b =>
  (b.storeCoins opts.jettonAmount).bind fun b =>
  (b.storeAddress opts.fromAddress).bind fun b =>
  (b.storeBit true).bind fun b =>
  (b.storeRef transferPayload).bind fun b =>
  .ok b.endCell

/-- Body of `Vault.sendReinvest`: the outer cell stores the `reinvest` opcode,
query id and coin-encoded `totalReward` plus one child reference; the child
cell stores `amountToSwap`, `limit`, `deadline`, the two target balances and
the three fee components. -/
def Vault.sendReinvest (opts : VaultReinvestOpts) : Except BuildError Cell :=
  ((beginCell.storeCoins opts.amountToSwap).bind fun b =>
   (b.storeCoins opts.limit).bind fun b =>
   (b.storeUint opts.deadline 32).bind fun b =>
   (b.storeCoins opts.tonTargetBalance).bind fun b =>
   (b.storeCoins opts.jettonTargetBalance).bind fun b =>
   (b.storeCoins opts.depositFee).bind fun b =>
   (b.storeCoins opts.depositFwdFee).bind fun b =>
   (b.storeCoins opts.transferFee).bind fun b =>
   .ok b.endCell).bind fun inner =>
  (beginCell.storeUint (Vault.OPS.reinvest : Int) 32).bind fun b =>
  (b.storeUint (opts.queryId.getD 0) 64).bind fun b =>
  (b.storeCoins opts.totalReward).bind fun b =>
  (b.storeRef inner).bind fun b =>
  .ok b.endCell

/-- Body of `Vault.sendSetStrategyAddress`. -/
def Vault.sendSetStrategyAddress (opts : SetStrategyAddressOpts) : Except BuildError Cell :=
  (beginCell.storeUint (Vault.OPS.set_strategy_address : Int) 32).bind fun b =>
  (b.storeUint (opts.queryId.getD 0) 64).bind fun b =>
  (b.storeAddress opts.strategyAddress).bind fun b =>
  .ok b.endCell

/-- Body of `Vault.sendWithdrawManagementFee`. -/
def Vault.sendWithdrawManagementFee (opts : WithdrawManagementFeeOpts) : Except BuildError Cell :=
  (beginCell.storeUint (Vault.OPS.withdraw_management_fee : Int) 32).bind fun b =>
  (b.storeUint (opts.queryId.getD 0) 64).bind fun b =>
  (b.storeAddress opts.receiver).bind fun b =>
  (b.storeCoins opts.amount).bind fun b =>
  .ok b.endCell

/-- Body of `Vault.sendSetIsLocked`. -/
def Vault.sendSetIsLocked (opts : SetIsLockedOpts) : Except BuildError Cell :=
  (beginCell.storeUint (Vault.OPS.set_is_locked : Int) 32).bind fun b =>
  (b.storeUint (opts.queryId.getD 0) 64).bind fun b =>
  (b.storeUint opts.isLocked 1).bind fun b =>
  .ok b.endCell

/-- Body of `Vault.sendSetManagementFeeRate`: the rate is written as a 16-bit
unsigned field. -/
def Vault.sendSetManagementFeeRate (opts : SetManagementFeeRateOpts) : Except BuildError Cell :=
  (beginCell.storeUint (Vault.OPS.set_management_fee_rate : Int) 32).bind fun b =>
  (b.storeUint (opts.queryId.getD 0) 64).bind fun b =>
  (b.storeUint opts.managementFeeRate 16).bind fun b =>
  .ok b.endCell

/-- The persisted vault state record of `vaultConfigToCell`. -/
structure VaultConfig where
  distributionPoolAddress : Address
  sharesTotalSupply : Int
  depositedLp : Int
  isLocked : Int
  managementFeeRate : Int
  managementFee : Int
  depositLpWalletAddress : Address
  adminAddress : Address
  managerAddress : Address
  strategyAddress : Address
  sharesWalletCode : Cell
  tempUpgrade : Cell

/-- The `vaultConfigToCell` persisted-state encoder: note the rate and fee are
written with the variable coin encoding, not a 16-bit field. -/
def vaultConfigToCell (config : VaultConfig) : Except BuildError Cell :=
  ((beginCell.storeAddress config.adminAddress).bind fun b =>
   (b.storeAddress config.managerAddress).bind fun b =>
   (b.storeAddress config.strategyAddress).bind fun b =>
   .ok b.endCell).bind fun adminCell =>
  (beginCell.storeAddress config.distributionPoolAddress).bind fun b =>
  (b.storeCoins config.sharesTotalSupply).bind fun b =>
  (b.storeCoins config.depositedLp).bind fun b =>
  (b.storeUint config.isLocked 1).bind fun b =>
  (b.storeCoins config.managementFeeRate).bind fun b =>
  (b.storeCoins config.managementFee).bind fun b =>
  (b.storeAddress config.depositLpWalletAddress).bind fun b =>
  (b.storeRef adminCell).bind fun b =>
  (b.storeRef config.sharesWalletCode).bind fun b =>
  (b.storeRef config.tempUpgrade).bind fun b =>
  .ok b.endCell

/-! ## Shape lemmas: under in-range field values each builder succeeds and
produces exactly the cell its TypeScript chain writes. -/

theorem storeUint_okl {bits : List Bool} {refs : List Cell} {v : Int} {w : Nat}
    (h1 : 0 ≤ v) (h2 : v < (2 : Int) ^ w) (h3 : bits.length + w ≤ 1023) :
    Builder.storeUint ⟨bits, refs⟩ v w = .ok ⟨bits ++ natToBits v.toNat w, refs⟩ :=
  storeUint_ok h1 h2 h3

theorem storeCoins_okl {bits : List Bool} {refs : List Cell} {v : Int}
    (h1 : 0 ≤ v) (h2 : v < (2 : Int) ^ 120) (h3 : bits.length + 124 ≤ 1023) :
    Builder.storeCoins ⟨bits, refs⟩ v = .ok ⟨bits ++ coinsBits v.toNat, refs⟩ :=
  storeCoins_ok h1 h2 h3

theorem storeAddress_okl {bits : List Bool} {refs : List Cell} {a : Address}
    (h3 : bits.length + 267 ≤ 1023) :
    Builder.storeAddress ⟨bits, refs⟩ a = .ok ⟨bits ++ addrBits a, refs⟩ :=
  storeAddress_ok h3

theorem storeBit_okl {bits : List Bool} {refs : List Cell} {x : Bool}
    (h3 : bits.length + 1 ≤ 1023) :
    Builder.storeBit ⟨bits, refs⟩ x = .ok ⟨bits ++ [x], refs⟩ :=
  storeBit_ok h3

theorem storeRef_okl {bits : List Bool} {refs : List Cell} {c : Cell}
    (h : refs.length ≤ 3) :
    Builder.storeRef ⟨bits, refs⟩ c = .ok ⟨bits, refs ++ [c]⟩ :=
  storeRef_ok h

theorem beginCell_eq : beginCell = ⟨[], []⟩ := rfl

theorem sendSetStrategyAddress_shape (opts : SetStrategyAddressOpts)
    (hq : fitsUint (opts.queryId.getD 0) 64) :
    Vault.sendSetStrategyAddress opts =
      .ok (.mk (natToBits Vault.OPS.set_strategy_address 32 ++
        (natToBits (opts.queryId.getD 0).toNat 64 ++ addrBits opts.strategyAddress)) []) := by
  unfold Vault.sendSetStrategyAddress
  rw [beginCell_eq]
  rw [storeUint_okl (by decide) (by decide) (by decide)]
  simp only [ok_bind]
  rw [storeUint_okl hq.1 hq.2 (by simp [natToBits_length])]
  simp only [ok_bind]
  rw [storeAddress_okl (by simp [natToBits_length])]
  simp only [ok_bind, Builder.endCell]
  simp [natToBits_length, List.append_assoc, Int.toNat_natCast]

theorem sendSetJettonWalletAddress_shape (opts : SetWalletAddressOpts)
    (hq : fitsUint (opts.queryId.getD 0) 64) :
    TonJettonTonStrategy.sendSetJettonWalletAddress opts =
      .ok (.mk (natToBits Opcodes.set_jetton_wallet_address 32 ++
        (natToBits (opts.queryId.getD 0).toNat 64 ++ addrBits opts.walletAddress)) []) := by
  unfold TonJettonTonStrategy.sendSetJettonWalletAddress
  rw [beginCell_eq]
  rw [storeUint_okl (by decide) (by decide) (by decide)]
  simp only [ok_bind]
  rw [storeUint_okl hq.1 hq.2 (by simp [natToBits_length])]
  simp only [ok_bind]
  rw [storeAddress_okl (by simp [natToBits_length])]
  simp only [ok_bind, Builder.endCell]
  simp [natToBits_length, List.append_assoc, Int.toNat_natCast]

theorem sendSetDepositLpWalletAddress_shape (opts : SetWalletAddressOpts)
    (hq : fitsUint (opts.queryId.getD 0) 64) :
    TonJettonTonStrategy.sendSetDepositLpWalletAddress opts =
      .ok (.mk (natToBits Opcodes.set_deposit_lp_wallet_address 32 ++
        (natToBits (opts.queryId.getD 0).toNat 64 ++ addrBits opts.walletAddress)) []) := by
  unfold TonJettonTonStrategy.sendSetDepositLpWalletAddress
  rw [beginCell_eq]
  rw [storeUint_okl (by decide) (by decide) (by decide)]
  simp only [ok_bind]
  rw [storeUint_okl hq.1 hq.2 (by simp [natToBits_length])]
  simp only [ok_bind]
  rw [storeAddress_okl (by simp [natToBits_length])]
  simp only [ok_bind, Builder.endCell]
  simp [natToBits_length, List.append_assoc, Int.toNat_natCast]

theorem prepareDepositPayload_shape :
    Vault.prepareDepositPayload = .ok (.mk (natToBits Vault.OPS.deposit 32) []) := by
  unfold Vault.prepareDepositPayload
  rw [beginCell_eq]
  rw [storeUint_okl (by decide) (by decide) (by decide)]
  simp [ok_bind, Builder.endCell, Int.toNat_natCast]

theorem sendDepositNotification_shape (opts : DepositNotificationOpts)
    (hq : fitsUint (opts.queryId.getD 0) 64) (hja : fitsCoins opts.jettonAmount) :
    Vault.sendDepositNotification opts =
      .ok (.mk (natToBits Vault.OPS.transfer_notification 32 ++
          (natToBits (opts.queryId.getD 0).toNat 64 ++
          (coinsBits opts.jettonAmount.toNat ++ (addrBits opts.fromAddress ++ [true]))))
        [.mk (natToBits Vault.OPS.deposit 32) []]) := by
  have lja := coinsBits_length_le (toNat_lt_of_int_lt hja.2)
  unfold Vault.sendDepositNotification
  rw [prepareDepositPayload_shape]
  simp only [ok_bind]
  rw [beginCell_eq]
  rw [storeUint_okl (by decide) (by decide) (by decide)]
  simp only [ok_bind]
  rw [storeUint_okl hq.1 hq.2 (by simp [natToBits_length])]
  simp only [ok_bind]
  rw [storeCoins_okl hja.1 hja.2
    (by simp only [List.length_append, List.length_nil, natToBits_length]; omega)]
  simp only [ok_bind]
  rw [storeAddress_okl
    (by simp only [List.length_append, List.length_nil, natToBits_length]; omega)]
  simp only [ok_bind]
  rw [storeBit_okl
    (by simp only [List.length_append, List.length_nil, natToBits_length,
      addrBits_length]; omega)]
  simp only [ok_bind]
  rw [storeRef_okl (by simp)]
  simp only [ok_bind, Builder.endCell]
  simp [natToBits_length, List.append_assoc, Int.toNat_natCast]

theorem strategy_sendReinvest_shape (opts : StrategyReinvestOpts)
    (hq : fitsUint (opts.queryId.getD 0) 64)
    (htr : fitsCoins opts.totalReward) (has : fitsCoins opts.amountToSwap)
    (hl : fitsCoins opts.limit) (hd : fitsUint opts.deadline 32)
    (htt : fitsCoins opts.tonTargetBalance) (hjt : fitsCoins opts.jettonTargetBalance) :
    TonJettonTonStrategy.sendReinvest opts =
      .ok (.mk (coinsBits opts.totalReward.toNat)
        [.mk (natToBits Opcodes.reinvest 32 ++
          (natToBits (opts.queryId.getD 0).toNat 64 ++
          (coinsBits opts.amountToSwap.toNat ++
          (coinsBits opts.limit.toNat ++
          (natToBits opts.deadline.toNat 32 ++
          (coinsBits opts.tonTargetBalance.toNat ++
            coinsBits opts.jettonTargetBalance.toNat)))))) []]) := by
  have las := coinsBits_length_le (toNat_lt_of_int_lt has.2)
  have ll := coinsBits_length_le (toNat_lt_of_int_lt hl.2)
  have ltt := coinsBits_length_le (toNat_lt_of_int_lt htt.2)
  have ljt := coinsBits_length_le (toNat_lt_of_int_lt hjt.2)
  have ltr := coinsBits_length_le (toNat_lt_of_int_lt htr.2)
  unfold TonJettonTonStrategy.sendReinvest
  rw [beginCell_eq]
  rw [storeUint_okl (by decide) (by decide) (by decide)]
  simp only [ok_bind]
  rw [storeUint_okl hq.1 hq.2 (by simp [natToBits_length])]
  simp only [ok_bind]
  rw [storeCoins_okl has.1 has.2
    (by simp only [List.length_append, List.length_nil, natToBits_length]; omega)]
  simp only [ok_bind]
  rw [storeCoins_okl hl.1 hl.2
    (by simp only [List.length_append, List.length_nil, natToBits_length]; omega)]
  simp only [ok_bind]
  rw [storeUint_okl hd.1 hd.2
    (by simp only [List.length_append, List.length_nil, natToBits_length]; omega)]
  simp only [ok_bind]
  rw [storeCoins_okl htt.1 htt.2
    (by simp only [List.length_append, List.length_nil, natToBits_length]; omega)]
  simp only [ok_bind]
  rw [storeCoins_okl hjt.1 hjt.2
    (by simp only [List.length_append, List.length_nil, natToBits_length]; omega)]
  simp only [ok_bind, Builder.endCell]
  rw [storeCoins_okl htr.1 htr.2 (by simp)]
  simp only [ok_bind]
  rw [storeRef_okl (by simp)]
  simp only [ok_bind, Builder.endCell]
  simp [natToBits_length, List.append_assoc, Int.toNat_natCast]

theorem vault_sendReinvest_shape (opts : VaultReinvestOpts)
    (hq : fitsUint (opts.queryId.getD 0) 64)
    (htr : fitsCoins opts.totalReward) (has : fitsCoins opts.amountToSwap)
    (hl : fitsCoins opts.limit) (hd : fitsUint opts.deadline 32)
    (htt : fitsCoins opts.tonTargetBalance) (hjt : fitsCoins opts.jettonTargetBalance)
    (hdf : fitsCoins opts.depositFee) (hdw : fitsCoins opts.depositFwdFee)
    (htf : fitsCoins opts.transferFee) :
    Vault.sendReinvest opts =
      .ok (.mk (natToBits Vault.OPS.reinvest 32 ++
          (natToBits (opts.queryId.getD 0).toNat 64 ++ coinsBits opts.totalReward.toNat))
        [.mk (coinsBits opts.amountToSwap.toNat ++
          (coinsBits opts.limit.toNat ++
          (natToBits opts.deadline.toNat 32 ++
          (coinsBits opts.tonTargetBalance.toNat ++
          (coinsBits opts.jettonTargetBalance.toNat ++
          (coinsBits opts.depositFee.toNat ++
          (coinsBits opts.depositFwdFee.toNat ++ coinsBits opts.transferFee.toNat))))))) []]) := by
  have las := coinsBits_length_le (toNat_lt_of_int_lt has.2)
  have ll := coinsBits_length_le (toNat_lt_of_int_lt hl.2)
  have ltt := coinsBits_length_le (toNat_lt_of_int_lt htt.2)
  have ljt := coinsBits_length_le (toNat_lt_of_int_lt hjt.2)
  have ldf := coinsBits_length_le (toNat_lt_of_int_lt hdf.2)
  have ldw := coinsBits_length_le (toNat_lt_of_int_lt hdw.2)
  have ltf := coinsBits_length_le (toNat_lt_of_int_lt htf.2)
  have ltr := coinsBits_length_le (toNat_lt_of_int_lt htr.2)
  unfold Vault.sendReinvest
  rw [beginCell_eq]
  rw [storeCoins_okl has.1 has.2 (by simp)]
  simp only [ok_bind]
  rw [storeCoins_okl hl.1 hl.2
    (by simp only [List.length_append, List.length_nil, natToBits_length]; omega)]
  simp only [ok_bind]
  rw [storeUint_okl hd.1 hd.2
    (by simp only [List.length_append, List.length_nil, natToBits_length]; omega)]
  simp only [ok_bind]
  rw [storeCoins_okl htt.1 htt.2
    (by simp only [List.length_append, List.length_nil, natToBits_length]; omega)]
  simp only [ok_bind]
  rw [storeCoins_okl hjt.1 hjt.2
    (by simp only [List.length_append, List.length_nil, natToBits_length]; omega)]
  simp only [ok_bind]
  rw [storeCoins_okl hdf.1 hdf.2
    (by simp only [List.length_append, List.length_nil, natToBits_length]; omega)]
  simp only [ok_bind]
  rw [storeCoins_okl hdw.1 hdw.2
    (by simp only [List.length_append, List.length_nil, natToBits_length]; omega)]
  simp only [ok_bind]
  rw [storeCoins_okl htf.1 htf.2
    (by simp only [List.length_append, List.length_nil, natToBits_length]; omega)]
  simp only [ok_bind, Builder.endCell]
  rw [storeUint_okl (by decide) (by decide) (by decide)]
  simp only [ok_bind]
  rw [storeUint_okl hq.1 hq.2 (by simp [natToBits_length])]
  simp only [ok_bind]
  rw [storeCoins_okl htr.1 htr.2
    (by simp only [List.length_append, List.length_nil, natToBits_length]; omega)]
  simp only [ok_bind]
  rw [storeRef_okl (by simp)]
  simp only [ok_bind, Builder.endCell]
  simp [natToBits_length, List.append_assoc, Int.toNat_natCast]

theorem sendWithdrawManagementFee_shape (opts : WithdrawManagementFeeOpts)
    (hq : fitsUint (opts.queryId.getD 0) 64) (ha : fitsCoins opts.amount) :
    Vault.sendWithdrawManagementFee opts =
      .ok (.mk (natToBits Vault.OPS.withdraw_management_fee 32 ++
        (natToBits (opts.queryId.getD 0).toNat 64 ++
        (addrBits opts.receiver ++ coinsBits opts.amount.toNat))) []) := by
  have la := coinsBits_length_le (toNat_lt_of_int_lt ha.2)
  unfold Vault.sendWithdrawManagementFee
  rw [beginCell_eq]
  rw [storeUint_okl (by decide) (by decide) (by decide)]
  simp only [ok_bind]
  rw [storeUint_okl hq.1 hq.2 (by simp [natToBits_length])]
  simp only [ok_bind]
  rw [storeAddress_okl (by simp [natToBits_length])]
  simp only [ok_bind]
  rw [storeCoins_okl ha.1 ha.2
    (by simp only [List.length_append, List.length_nil, natToBits_length,
      addrBits_length]; omega)]
  simp only [ok_bind, Builder.endCell]
  simp [natToBits_length, List.append_assoc, Int.toNat_natCast]

theorem sendSetIsLocked_shape (opts : SetIsLockedOpts)
    (hq : fitsUint (opts.queryId.getD 0) 64) (hil : fitsUint opts.isLocked 1) :
    Vault.sendSetIsLocked opts =
      .ok (.mk (natToBits Vault.OPS.set_is_locked 32 ++
        (natToBits (opts.queryId.getD 0).toNat 64 ++ natToBits opts.isLocked.toNat 1)) []) := by
  unfold Vault.sendSetIsLocked
  rw [beginCell_eq]
  rw [storeUint_okl (by decide) (by decide) (by decide)]
  simp only [ok_bind]
  rw [storeUint_okl hq.1 hq.2 (by simp [natToBits_length])]
  simp only [ok_bind]
  rw [storeUint_okl hil.1 hil.2 (by simp [natToBits_length])]
  simp only [ok_bind, Builder.endCell]
  simp [natToBits_length, List.append_assoc, Int.toNat_natCast]

theorem sendSetManagementFeeRate_shape (opts : SetManagementFeeRateOpts)
    (hq : fitsUint (opts.queryId.getD 0) 64) (hr : fitsUint opts.managementFeeRate 16) :
    Vault.sendSetManagementFeeRate opts =
      .ok (.mk (natToBits Vault.OPS.set_management_fee_rate 32 ++
        (natToBits (opts.queryId.getD 0).toNat 64 ++
          natToBits opts.managementFeeRate.toNat 16)) []) := by
  unfold Vault.sendSetManagementFeeRate
  rw [beginCell_eq]
  rw [storeUint_okl (by decide) (by decide) (by decide)]
  simp only [ok_bind]
  rw [storeUint_okl hq.1 hq.2 (by simp [natToBits_length])]
  simp only [ok_bind]
  rw [storeUint_okl hr.1 hr.2 (by simp [natToBits_length])]
  simp only [ok_bind, Builder.endCell]
  simp [natToBits_length, List.append_assoc, Int.toNat_natCast]

/-! ## The extra-rewards distribution orchestrator
(`src/vault-extra-rewards-distribution.ts`)

The orchestrator's external collaborators are abstracted: the configured vault
list (`addresses.vaults`) is a parameter, `DistributionPool.getPoolExtraData`
is an environment function from pool address to pool data, and the two
`wait`-wrapped submissions (`prepareExtraRewards`/`distributeRewards`, and the
governor's funding `send`) are recorded as trace actions whose success is
given by environment oracles. Each wait-wrapped submission records the key the
wait primitive is called with; a failed submission aborts the run, as the
`for … await` loop has no try/catch. -/

/-- One entry of the configured `addresses.vaults` table. -/
structure VaultEntry where
  vault : Nat
  extraDistributionPool : Nat
  deriving DecidableEq

/-- The pool state read by `distributionPool.getPoolExtraData()`; only the
token wallet address is consumed by the orchestrator. -/
structure PoolExtraData where
  tokenWalletAddress : Nat
  deriving DecidableEq

/-- Observable actions of one orchestrator run. `distribute` and `transfer`
carry the key string the surrounding `wait` call is keyed on. -/
inductive OrchAction where
  | getPoolExtraData (pool : Nat)
  | distribute (key : String) (vault : Nat) (pool : Nat)
  | transfer (key : String) (toAddr : Nat) (amount : Nat)
  deriving DecidableEq

/-- The abstracted collaborators: pool-state lookup, the size of the rewards
dictionary `prepareExtraRewards` computes for a vault, and per-vault success
oracles of the two wait-wrapped submissions. -/
structure OrchEnv where
  getPoolExtraData : Nat → PoolExtraData
  rewardsDictSize : Nat → Nat
  distributeOk : Nat → Bool
  transferOk : Nat → Bool

/-- The per-period reward budget: `toNano(0.1)` in nano units. -/
def rewardPerPeriod : Nat := 100000000

/-- The protocol fee margin: `toNano(0.05)` in nano units. -/
def fee : Nat := 50000000

/-- One iteration of the orchestrator's per-vault loop: query the pool's extra
data, run the first `wait` (keyed on the governor address) which calls
`distributeRewards` only when the rewards dictionary is non-empty, then run
the second `wait` (same key) sending `rewardPerPeriod + fee` to the pool's
token wallet. Returns the recorded actions and whether the iteration
completed without a thrown submission error. -/
def processVault (env : OrchEnv) (address : String) (vd : VaultEntry) :
    List OrchAction × Bool :=
  let poolData := env.getPoolExtraData vd.extraDistributionPool
  let acts0 := [OrchAction.getPoolExtraData vd.extraDistributionPool]
  if 0 < env.rewardsDictSize vd.vault then
    let acts1 := acts0 ++ [OrchAction.distribute address vd.vault vd.extraDistributionPool]
    if env.distributeOk vd.vault then
      (acts1 ++ [OrchAction.transfer address poolData.tokenWalletAddress (rewardPerPeriod + fee)],
        env.transferOk vd.vault)
    else (acts1, false)
  else
    (acts0 ++ [OrchAction.transfer address poolData.tokenWalletAddress (rewardPerPeriod + fee)],
      env.transferOk vd.vault)

/-- The `vaultExtraRewardsDistribution` entry point: iterate the configured
vaults sequentially; a vault whose processing fails aborts the whole run (its
rejection propagates out of the `async` function), so later vaults are not
reached. -/
def vaultExtraRewardsDistribution (env : OrchEnv) (address : String) :
    List VaultEntry → List OrchAction × Bool
  | [] => ([], true)
  | vd :: rest =>
    let r := processVault env address vd
    if r.2 then
      let r2 := vaultExtraRewardsDistribution env address rest
      (r.1 ++ r2.1, r2.2)
    else (r.1, false)

/-- Whether a trace contains a distribution submission. -/
def hasDistribute : List OrchAction → Bool
  | [] => false
  | OrchAction.distribute _ _ _ :: _ => true
  | _ :: rest => hasDistribute rest

/-- The bit payload of the first child reference of a successfully built cell
(empty on error or when no reference is attached). -/
def refBits : Except BuildError Cell → List Bool
  | .ok c => firstRefBits c
  | .error _ => []

/-- A `storeUint` whose value is negative or too wide fails with the range
error, regardless of the builder's current contents. -/
theorem storeUint_range_error {b : Builder} {v : Int} {w : Nat}
    (h : v < 0 ∨ (2 : Int) ^ w ≤ v) :
    b.storeUint v w = .error .rangeError := by
  unfold Builder.storeUint
  rw [if_pos h]

/-! ## Claims -/

/-- C4: the opcode constants defined in the code (the strategy-side `Opcodes`
table and `Vault.OPS`) are bit-exact equal to the documented opcode table;
names defined in both tables carry the same value in each. -/
theorem C4_opcode_table :
    Vault.OPS.transfer_notification = 0x7362d09c ∧
    Opcodes.transfer_notification = 0x7362d09c ∧
    Vault.OPS.internal_transfer = 0x178d4519 ∧
    Opcodes.internal_transfer = 0x178d4519 ∧
    Vault.OPS.excesses = 0xd53276db ∧
    Opcodes.excesses = 0xd53276db ∧
    Vault.OPS.transfer = 0xf8a7ea5 ∧
    Opcodes.transfer = 0xf8a7ea5 ∧
    Vault.OPS.deposit = 0x95db9d39 ∧
    Vault.OPS.withdraw = 0xb5de5f9e ∧
    Vault.OPS.init = 0xc674e474 ∧
    Vault.OPS.reinvest = 0x812d4e3 ∧
    Opcodes.reinvest = 0x812d4e3 ∧
    Vault.OPS.complete_reinvest = 0x973280f5 ∧
    Vault.OPS.withdraw_management_fee = 0xef9e917b ∧
    Vault.OPS.set_strategy_address = 0xa3d7611f ∧
    Vault.OPS.set_management_fee_rate = 0xc25ffa5f ∧
    Vault.OPS.set_is_locked = 0xe2cde084 ∧
    Vault.OPS.burn_notification = 0x7bdd97de ∧
    Vault.OPS.transfer_bounce_invalid_request = 0x19727ea8 ∧
    Opcodes.set_deposit_lp_wallet_address = 0x7719b84f ∧
    Opcodes.set_jetton_wallet_address = 0x288b5223 := by
  decide

/-- C9: the exit-code constants enumerate exactly the integers 80 through 94
in the documented meaning-order. -/
theorem C9_exit_codes :
    Vault.EXIT_CODES.WRONG_OP = 80 ∧
    Vault.EXIT_CODES.WRONG_WORKCHAIN = 81 ∧
    Vault.EXIT_CODES.INVALID_AMOUNT = 82 ∧
    Vault.EXIT_CODES.INVALID_DEPOSIT_TOKEN = 83 ∧
    Vault.EXIT_CODES.INSUFFICIENT_GAS = 84 ∧
    Vault.EXIT_CODES.INVALID_CALLER = 85 ∧
    Vault.EXIT_CODES.ZERO_OUTPUT = 86 ∧
    Vault.EXIT_CODES.INSUFFICIENT_LP_BALANCE = 87 ∧
    Vault.EXIT_CODES.INSUFFICIENT_LP_AMOUNT = 88 ∧
    Vault.EXIT_CODES.INSUFFICIENT_REWARDS_BALANCE = 89 ∧
    Vault.EXIT_CODES.INVALID_REINVEST_SENDER = 90 ∧
    Vault.EXIT_CODES.WRONG_MANAGER_OP = 91 ∧
    Vault.EXIT_CODES.INSUFFICIENT_MANAGEMENT_FEE = 92 ∧
    Vault.EXIT_CODES.INSUFFICIENT_SHARES_BALANCE = 93 ∧
    Vault.EXIT_CODES.MANAGEMENT_FEE_RATE_OUT_OF_BOUNDS = 94 ∧
    [Vault.EXIT_CODES.WRONG_OP, Vault.EXIT_CODES.WRONG_WORKCHAIN,
     Vault.EXIT_CODES.INVALID_AMOUNT, Vault.EXIT_CODES.INVALID_DEPOSIT_TOKEN,
     Vault.EXIT_CODES.INSUFFICIENT_GAS, Vault.EXIT_CODES.INVALID_CALLER,
     Vault.EXIT_CODES.ZERO_OUTPUT, Vault.EXIT_CODES.INSUFFICIENT_LP_BALANCE,
     Vault.EXIT_CODES.INSUFFICIENT_LP_AMOUNT, Vault.EXIT_CODES.INSUFFICIENT_REWARDS_BALANCE,
     Vault.EXIT_CODES.INVALID_REINVEST_SENDER, Vault.EXIT_CODES.WRONG_MANAGER_OP,
     Vault.EXIT_CODES.INSUFFICIENT_MANAGEMENT_FEE, Vault.EXIT_CODES.INSUFFICIENT_SHARES_BALANCE,
     Vault.EXIT_CODES.MANAGEMENT_FEE_RATE_OUT_OF_BOUNDS] = List.range' 80 15 := by
  decide

/-- C3 counterexample: with two configured vaults where the first vault's
distribution submission fails, the run records no action at all for the
second vault — its pool is never queried and its funding transfer is never
sent — refuting the claim that one vault's failure does not block processing
of the next. -/
theorem C3_counterexample :
    (vaultExtraRewardsDistribution
        ⟨fun p => ⟨p + 1000⟩, fun _ => 1, fun v => v != 1, fun _ => true⟩
        "governor" [⟨1, 101⟩, ⟨2, 102⟩]).1 =
      [OrchAction.getPoolExtraData 101, OrchAction.distribute "governor" 1 101] ∧
    (vaultExtraRewardsDistribution
        ⟨fun p => ⟨p + 1000⟩, fun _ => 1, fun v => v != 1, fun _ => true⟩
        "governor" [⟨1, 101⟩, ⟨2, 102⟩]).2 = false ∧
    OrchAction.getPoolExtraData 102 ∉
      (vaultExtraRewardsDistribution
        ⟨fun p => ⟨p + 1000⟩, fun _ => 1, fun v => v != 1, fun _ => true⟩
        "governor" [⟨1, 101⟩, ⟨2, 102⟩]).1 ∧
    OrchAction.transfer "governor" 1102 (rewardPerPeriod + fee) ∉
      (vaultExtraRewardsDistribution
        ⟨fun p => ⟨p + 1000⟩, fun _ => 1, fun v => v != 1, fun _ => true⟩
        "governor" [⟨1, 101⟩, ⟨2, 102⟩]).1 := by
  decide

/-- C3 (amended): one vault's failure aborts the whole run — the trace of a
run whose first vault fails is exactly that vault's partial trace, and no
subsequent vault is processed. -/
theorem C3_amended (env : OrchEnv) (address : String) (vd : VaultEntry)
    (rest : List VaultEntry) (h : (processVault env address vd).2 = false) :
    vaultExtraRewardsDistribution env address (vd :: rest) =
      ((processVault env address vd).1, false) := by
  simp only [vaultExtraRewardsDistribution, h]
  simp

/-- C3 witness: a concrete failing first vault aborts the two-vault run. -/
theorem C3_witness :
    vaultExtraRewardsDistribution
        ⟨fun p => ⟨p + 1000⟩, fun _ => 1, fun _ => false, fun _ => true⟩
        "gov" [⟨3, 7⟩, ⟨4, 8⟩] =
      ((processVault ⟨fun p => ⟨p + 1000⟩, fun _ => 1, fun _ => false, fun _ => true⟩
        "gov" ⟨3, 7⟩).1, false) :=
  C3_amended _ _ _ _ (by decide)

/-- C6: for a vault whose rewards dictionary is empty the orchestrator records
no distribution submission, but still records the funding transfer of the
reward budget to the pool's token wallet. -/
theorem C6_zero_holders (env : OrchEnv) (address : String) (vd : VaultEntry)
    (h : env.rewardsDictSize vd.vault = 0) :
    hasDistribute (processVault env address vd).1 = false ∧
    OrchAction.transfer address
        (env.getPoolExtraData vd.extraDistributionPool).tokenWalletAddress
        (rewardPerPeriod + fee) ∈ (processVault env address vd).1 := by
  unfold processVault
  simp [h, hasDistribute]

/-- C6 witness: a concrete empty-dictionary vault. -/
theorem C6_witness :
    hasDistribute (processVault ⟨fun p => ⟨p⟩, fun _ => 0, fun _ => true, fun _ => true⟩
      "gov" ⟨1, 2⟩).1 = false ∧
    OrchAction.transfer "gov"
        (OrchEnv.getPoolExtraData ⟨fun p => ⟨p⟩, fun _ => 0, fun _ => true, fun _ => true⟩ 2).tokenWalletAddress
        (rewardPerPeriod + fee) ∈
      (processVault ⟨fun p => ⟨p⟩, fun _ => 0, fun _ => true, fun _ => true⟩ "gov" ⟨1, 2⟩).1 :=
  C6_zero_holders ⟨fun p => ⟨p⟩, fun _ => 0, fun _ => true, fun _ => true⟩ "gov" ⟨1, 2⟩ rfl

/-- C7: within one vault whose distribution is submitted and confirmed, the
trace is exactly pool query, then the distribution submission, then the
funding transfer — the distribution happens-before the transfer, and both
wait-wrapped submissions carry the same governor address string as key. -/
theorem C7_ordering (env : OrchEnv) (address : String) (vd : VaultEntry)
    (hsz : 0 < env.rewardsDictSize vd.vault) (hok : env.distributeOk vd.vault = true) :
    (processVault env address vd).1 =
      [OrchAction.getPoolExtraData vd.extraDistributionPool,
       OrchAction.distribute address vd.vault vd.extraDistributionPool,
       OrchAction.transfer address
         (env.getPoolExtraData vd.extraDistributionPool).tokenWalletAddress
         (rewardPerPeriod + fee)] := by
  unfold processVault
  simp [hsz, hok]

/-- C7 witness: a concrete vault with a non-empty rewards dictionary. -/
theorem C7_witness :
    (processVault ⟨fun p => ⟨p⟩, fun _ => 3, fun _ => true, fun _ => true⟩ "gov" ⟨1, 2⟩).1 =
      [OrchAction.getPoolExtraData 2,
       OrchAction.distribute "gov" 1 2,
       OrchAction.transfer "gov"
         (OrchEnv.getPoolExtraData ⟨fun p => ⟨p⟩, fun _ => 3, fun _ => true, fun _ => true⟩ 2).tokenWalletAddress
         (rewardPerPeriod + fee)] :=
  C7_ordering ⟨fun p => ⟨p⟩, fun _ => 3, fun _ => true, fun _ => true⟩ "gov" ⟨1, 2⟩
    (by decide) rfl

/-- C8: whenever a vault's iteration reaches the funding step (its
distribution either skipped or confirmed), the recorded funding transfer is
keyed on the governor address and sends exactly `rewardPerPeriod + fee` —
`toNano(0.1) + toNano(0.05)` nano units — to the token wallet address read
from the pool's extra-reward state. -/
theorem C8_funding_amount (env : OrchEnv) (address : String) (vd : VaultEntry)
    (h : env.rewardsDictSize vd.vault = 0 ∨ env.distributeOk vd.vault = true) :
    rewardPerPeriod = 100000000 ∧ fee = 50000000 ∧
    OrchAction.transfer address
        (env.getPoolExtraData vd.extraDistributionPool).tokenWalletAddress
        (rewardPerPeriod + fee) ∈ (processVault env address vd).1 := by
  refine ⟨rfl, rfl, ?_⟩
  unfold processVault
  rcases h with h | h
  · simp [h]
  · by_cases hs : 0 < env.rewardsDictSize vd.vault
    · simp [hs, h]
    · simp [hs]

/-- C8 witness: a concrete vault whose distribution is confirmed. -/
theorem C8_witness :
    rewardPerPeriod = 100000000 ∧ fee = 50000000 ∧
    OrchAction.transfer "gov"
        (OrchEnv.getPoolExtraData ⟨fun p => ⟨p + 5⟩, fun _ => 2, fun _ => true, fun _ => true⟩ 9).tokenWalletAddress
        (rewardPerPeriod + fee) ∈
      (processVault ⟨fun p => ⟨p + 5⟩, fun _ => 2, fun _ => true, fun _ => true⟩ "gov" ⟨4, 9⟩).1 :=
  C8_funding_amount ⟨fun p => ⟨p + 5⟩, fun _ => 2, fun _ => true, fun _ => true⟩ "gov" ⟨4, 9⟩
    (Or.inr rfl)

theorem sliceUint_last (pre : List Bool) (v w n : Nat)
    (hn : pre.length = n) (h : v < 2 ^ w) :
    sliceUint (pre ++ natToBits v w) n w = v := by
  have := sliceUint_at pre [] v w n hn h
  simpa using this

/-- C1 counterexample: at concrete inputs neither reinvest body's outer cell
consists of exactly the 32-bit opcode and 64-bit query id as flat fields. The
strategy's reinvest outer cell is the 4-bit coin encoding of `totalReward = 0`
(no opcode at all), and the vault's reinvest outer cell additionally carries
the coin-encoded `totalReward`, making it 108 bits rather than 96. -/
theorem C1_counterexample :
    (bodyBits (TonJettonTonStrategy.sendReinvest ⟨0, 0, 0, 0, 0, 0, 0, none⟩)).length ≠ 96 ∧
    sliceUint (bodyBits (TonJettonTonStrategy.sendReinvest ⟨0, 0, 0, 0, 0, 0, 0, none⟩)) 0 32 ≠
      Opcodes.reinvest ∧
    isOk (TonJettonTonStrategy.sendReinvest ⟨0, 0, 0, 0, 0, 0, 0, none⟩) = true ∧
    (bodyBits (Vault.sendReinvest ⟨0, 5, 0, 0, 0, 0, 0, 0, 0, 0, none⟩)).length ≠ 96 ∧
    isOk (Vault.sendReinvest ⟨0, 5, 0, 0, 0, 0, 0, 0, 0, 0, none⟩) = true := by
  decide

/-- C1 (amended): both reinvest builders nest the wide numeric swap fields in
a single child cell; the vault's outer cell carries opcode, query id and the
coin-encoded `totalReward` as flat fields, while the strategy's outer cell
carries only the coin-encoded `totalReward`, its opcode and query id leading
the child cell instead. -/
theorem C1_amended (o1 : StrategyReinvestOpts)
    (h1q : fitsUint (o1.queryId.getD 0) 64) (h1tr : fitsCoins o1.totalReward)
    (h1as : fitsCoins o1.amountToSwap) (h1l : fitsCoins o1.limit)
    (h1d : fitsUint o1.deadline 32) (h1tt : fitsCoins o1.tonTargetBalance)
    (h1jt : fitsCoins o1.jettonTargetBalance)
    (o5 : VaultReinvestOpts)
    (h5q : fitsUint (o5.queryId.getD 0) 64) (h5tr : fitsCoins o5.totalReward)
    (h5as : fitsCoins o5.amountToSwap) (h5l : fitsCoins o5.limit)
    (h5d : fitsUint o5.deadline 32) (h5tt : fitsCoins o5.tonTargetBalance)
    (h5jt : fitsCoins o5.jettonTargetBalance) (h5df : fitsCoins o5.depositFee)
    (h5dw : fitsCoins o5.depositFwdFee) (h5tf : fitsCoins o5.transferFee) :
    (bodyRefs (TonJettonTonStrategy.sendReinvest o1)).length = 1 ∧
    bodyBits (TonJettonTonStrategy.sendReinvest o1) = coinsBits o1.totalReward.toNat ∧
    refBits (TonJettonTonStrategy.sendReinvest o1) =
      natToBits Opcodes.reinvest 32 ++ (natToBits (o1.queryId.getD 0).toNat 64 ++
      (coinsBits o1.amountToSwap.toNat ++ (coinsBits o1.limit.toNat ++
      (natToBits o1.deadline.toNat 32 ++ (coinsBits o1.tonTargetBalance.toNat ++
        coinsBits o1.jettonTargetBalance.toNat))))) ∧
    (bodyRefs (Vault.sendReinvest o5)).length = 1 ∧
    bodyBits (Vault.sendReinvest o5) =
      natToBits Vault.OPS.reinvest 32 ++ (natToBits (o5.queryId.getD 0).toNat 64 ++
        coinsBits o5.totalReward.toNat) ∧
    refBits (Vault.sendReinvest o5) =
      coinsBits o5.amountToSwap.toNat ++ (coinsBits o5.limit.toNat ++
      (natToBits o5.deadline.toNat 32 ++ (coinsBits o5.tonTargetBalance.toNat ++
      (coinsBits o5.jettonTargetBalance.toNat ++ (coinsBits o5.depositFee.toNat ++
      (coinsBits o5.depositFwdFee.toNat ++ coinsBits o5.transferFee.toNat)))))) := by
  rw [strategy_sendReinvest_shape o1 h1q h1tr h1as h1l h1d h1tt h1jt,
      vault_sendReinvest_shape o5 h5q h5tr h5as h5l h5d h5tt h5jt h5df h5dw h5tf]
  simp [bodyBits, bodyRefs, refBits, firstRefBits, Cell.refs, Cell.bits, List.headD]

/-- C1 witness: the strategy's reinvest body at an all-zero options record has
exactly one child reference. -/
theorem C1_witness :
    (bodyRefs (TonJettonTonStrategy.sendReinvest ⟨0, 0, 0, 0, 0, 0, 0, none⟩)).length = 1 :=
  (C1_amended ⟨0, 0, 0, 0, 0, 0, 0, none⟩ (by decide) (by decide) (by decide) (by decide)
    (by decide) (by decide) (by decide)
    ⟨0, 0, 0, 0, 0, 0, 0, 0, 0, 0, none⟩ (by decide) (by decide) (by decide) (by decide)
    (by decide) (by decide) (by decide) (by decide) (by decide) (by decide)).1

/-- C10: `sendSetManagementFeeRate` encodes the rate in exactly 16 bits — for
an in-range rate the body's rate field (bits 96..112) decodes to the rate, for
a rate that is negative or at least `2 ^ 16` construction fails with the range
error — even though `vaultConfigToCell` accepts the wider value `2 ^ 16` for
its coin-encoded rate field. -/
theorem C10_rate_16bit (opts : SetManagementFeeRateOpts)
    (hq : fitsUint (opts.queryId.getD 0) 64) :
    (fitsUint opts.managementFeeRate 16 →
      isOk (Vault.sendSetManagementFeeRate opts) = true ∧
      sliceUint (bodyBits (Vault.sendSetManagementFeeRate opts)) 96 16 =
        opts.managementFeeRate.toNat) ∧
    ((opts.managementFeeRate < 0 ∨ (2 : Int) ^ 16 ≤ opts.managementFeeRate) →
      Vault.sendSetManagementFeeRate opts = .error .rangeError) ∧
    Vault.MANAGEMENT_FEE_PRECISION = 10000 ∧
    isOk (vaultConfigToCell ⟨⟨0, 0⟩, 0, 0, 0, (2 : Int) ^ 16, 0, ⟨0, 0⟩, ⟨0, 0⟩, ⟨0, 0⟩,
      ⟨0, 0⟩, .mk [] [], .mk [] []⟩) = true := by
  refine ⟨?_, ?_, rfl, by decide⟩
  · intro hr
    rw [sendSetManagementFeeRate_shape opts hq hr]
    refine ⟨rfl, ?_⟩
    simp only [bodyBits, Cell.bits]
    rw [← List.append_assoc]
    exact sliceUint_last _ _ 16 96 (by simp [natToBits_length]) (toNat_lt_of_int_lt hr.2)
  · intro hr
    unfold Vault.sendSetManagementFeeRate
    rw [beginCell_eq, storeUint_okl (by decide) (by decide) (by decide)]
    simp only [ok_bind]
    rw [storeUint_okl hq.1 hq.2 (by simp [natToBits_length])]
    simp only [ok_bind]
    rw [storeUint_range_error hr]
    rfl

/-- C10 witness: rate 5 with an omitted query id round-trips through the
16-bit field. -/
theorem C10_witness :
    isOk (Vault.sendSetManagementFeeRate ⟨0, 5, none⟩) = true ∧
    sliceUint (bodyBits (Vault.sendSetManagementFeeRate ⟨0, 5, none⟩)) 96 16 =
      (5 : Int).toNat :=
  (C10_rate_16bit ⟨0, 5, none⟩ (by decide)).1 (by decide)

/-- C2 counterexample: the strategy's `sendReinvest` succeeds at a concrete
options record, yet the first 32 bits of its body do not decode to the
documented `reinvest` opcode — the body starts with the coin-encoded
`totalReward` and nests the opcode in the child cell. -/
theorem C2_counterexample :
    isOk (TonJettonTonStrategy.sendReinvest ⟨0, 7, 0, 0, 0, 0, 0, none⟩) = true ∧
    sliceUint (bodyBits (TonJettonTonStrategy.sendReinvest ⟨0, 7, 0, 0, 0, 0, 0, none⟩)) 0 32 ≠
      Opcodes.reinvest := by
  decide

/-- C2 (amended): for every valid options record, every message builder other
than the strategy's `sendReinvest` produces a body whose first 32 bits decode
to its documented opcode; the strategy's `sendReinvest` instead nests its
documented opcode as the first 32 bits of the body's single child cell. -/
theorem C2_amended (o1 : StrategyReinvestOpts)
    (h1q : fitsUint (o1.queryId.getD 0) 64) (h1tr : fitsCoins o1.totalReward)
    (h1as : fitsCoins o1.amountToSwap) (h1l : fitsCoins o1.limit)
    (h1d : fitsUint o1.deadline 32) (h1tt : fitsCoins o1.tonTargetBalance)
    (h1jt : fitsCoins o1.jettonTargetBalance)
    (o2 : SetWalletAddressOpts) (h2q : fitsUint (o2.queryId.getD 0) 64)
    (o3 : SetWalletAddressOpts) (h3q : fitsUint (o3.queryId.getD 0) 64)
    (o4 : DepositNotificationOpts) (h4q : fitsUint (o4.queryId.getD 0) 64)
    (h4a : fitsCoins o4.jettonAmount)
    (o5 : VaultReinvestOpts)
    (h5q : fitsUint (o5.queryId.getD 0) 64) (h5tr : fitsCoins o5.totalReward)
    (h5as : fitsCoins o5.amountToSwap) (h5l : fitsCoins o5.limit)
    (h5d : fitsUint o5.deadline 32) (h5tt : fitsCoins o5.tonTargetBalance)
    (h5jt : fitsCoins o5.jettonTargetBalance) (h5df : fitsCoins o5.depositFee)
    (h5dw : fitsCoins o5.depositFwdFee) (h5tf : fitsCoins o5.transferFee)
    (o6 : SetStrategyAddressOpts) (h6q : fitsUint (o6.queryId.getD 0) 64)
    (o7 : WithdrawManagementFeeOpts) (h7q : fitsUint (o7.queryId.getD 0) 64)
    (h7a : fitsCoins o7.amount)
    (o8 : SetIsLockedOpts) (h8q : fitsUint (o8.queryId.getD 0) 64)
    (h8il : fitsUint o8.isLocked 1)
    (o9 : SetManagementFeeRateOpts) (h9q : fitsUint (o9.queryId.getD 0) 64)
    (h9r : fitsUint o9.managementFeeRate 16) :
    (isOk (TonJettonTonStrategy.sendReinvest o1) = true ∧
      sliceUint (refBits (TonJettonTonStrategy.sendReinvest o1)) 0 32 = Opcodes.reinvest) ∧
    (isOk (TonJettonTonStrategy.sendSetJettonWalletAddress o2) = true ∧
      sliceUint (bodyBits (TonJettonTonStrategy.sendSetJettonWalletAddress o2)) 0 32 =
        Opcodes.set_jetton_wallet_address) ∧
    (isOk (TonJettonTonStrategy.sendSetDepositLpWalletAddress o3) = true ∧
      sliceUint (bodyBits (TonJettonTonStrategy.sendSetDepositLpWalletAddress o3)) 0 32 =
        Opcodes.set_deposit_lp_wallet_address) ∧
    (isOk (Vault.sendDepositNotification o4) = true ∧
      sliceUint (bodyBits (Vault.sendDepositNotification o4)) 0 32 =
        Vault.OPS.transfer_notification) ∧
    (isOk (Vault.sendReinvest o5) = true ∧
      sliceUint (bodyBits (Vault.sendReinvest o5)) 0 32 = Vault.OPS.reinvest) ∧
    (isOk (Vault.sendSetStrategyAddress o6) = true ∧
      sliceUint (bodyBits (Vault.sendSetStrategyAddress o6)) 0 32 =
        Vault.OPS.set_strategy_address) ∧
    (isOk (Vault.sendWithdrawManagementFee o7) = true ∧
      sliceUint (bodyBits (Vault.sendWithdrawManagementFee o7)) 0 32 =
        Vault.OPS.withdraw_management_fee) ∧
    (isOk (Vault.sendSetIsLocked o8) = true ∧
      sliceUint (bodyBits (Vault.sendSetIsLocked o8)) 0 32 = Vault.OPS.set_is_locked) ∧
    (isOk (Vault.sendSetManagementFeeRate o9) = true ∧
      sliceUint (bodyBits (Vault.sendSetManagementFeeRate o9)) 0 32 =
        Vault.OPS.set_management_fee_rate) := by
  rw [strategy_sendReinvest_shape o1 h1q h1tr h1as h1l h1d h1tt h1jt,
      sendSetJettonWalletAddress_shape o2 h2q,
      sendSetDepositLpWalletAddress_shape o3 h3q,
      sendDepositNotification_shape o4 h4q h4a,
      vault_sendReinvest_shape o5 h5q h5tr h5as h5l h5d h5tt h5jt h5df h5dw h5tf,
      sendSetStrategyAddress_shape o6 h6q,
      sendWithdrawManagementFee_shape o7 h7q h7a,
      sendSetIsLocked_shape o8 h8q h8il,
      sendSetManagementFeeRate_shape o9 h9q h9r]
  simp only [isOk, bodyBits, refBits, firstRefBits, Cell.refs, Cell.bits, List.headD]
  refine ⟨⟨trivial, ?_⟩, ⟨trivial, ?_⟩, ⟨trivial, ?_⟩, ⟨trivial, ?_⟩, ⟨trivial, ?_⟩,
    ⟨trivial, ?_⟩, ⟨trivial, ?_⟩, ⟨trivial, ?_⟩, ⟨trivial, ?_⟩⟩
  all_goals exact sliceUint_zero _ _ _ (by decide)

/-- C2 witness: the strategy's reinvest child cell at an all-zero options
record begins with the `reinvest` opcode. -/
theorem C2_witness :
    isOk (TonJettonTonStrategy.sendReinvest ⟨0, 0, 0, 0, 0, 0, 0, none⟩) = true ∧
    sliceUint (refBits (TonJettonTonStrategy.sendReinvest ⟨0, 0, 0, 0, 0, 0, 0, none⟩)) 0 32 =
      Opcodes.reinvest :=
  (C2_amended ⟨0, 0, 0, 0, 0, 0, 0, none⟩ (by decide) (by decide) (by decide) (by decide)
    (by decide) (by decide) (by decide)
    ⟨0, ⟨0, 0⟩, none⟩ (by decide)
    ⟨0, ⟨0, 0⟩, none⟩ (by decide)
    ⟨0, ⟨0, 0⟩, 0, none⟩ (by decide) (by decide)
    ⟨0, 0, 0, 0, 0, 0, 0, 0, 0, 0, none⟩ (by decide) (by decide) (by decide) (by decide)
    (by decide) (by decide) (by decide) (by decide) (by decide) (by decide)
    ⟨0, ⟨0, 0⟩, none⟩ (by decide)
    ⟨0, ⟨0, 0⟩, 0, none⟩ (by decide) (by decide)
    ⟨0, 0, none⟩ (by decide) (by decide)
    ⟨0, 0, none⟩ (by decide) (by decide)).1

/-- C5: for every builder that accepts an optional query id, omitting it
(`queryId = none`) yields a message body whose 64-bit query-id field — the 64
bits following the 32-bit opcode of the cell that carries it — decodes to 0. -/
theorem C5_query_id_default (o1 : StrategyReinvestOpts) (hn1 : o1.queryId = none)
    (h1tr : fitsCoins o1.totalReward) (h1as : fitsCoins o1.amountToSwap)
    (h1l : fitsCoins o1.limit) (h1d : fitsUint o1.deadline 32)
    (h1tt : fitsCoins o1.tonTargetBalance) (h1jt : fitsCoins o1.jettonTargetBalance)
    (o2 : SetWalletAddressOpts) (hn2 : o2.queryId = none)
    (o3 : SetWalletAddressOpts) (hn3 : o3.queryId = none)
    (o4 : DepositNotificationOpts) (hn4 : o4.queryId = none)
    (h4a : fitsCoins o4.jettonAmount)
    (o5 : VaultReinvestOpts) (hn5 : o5.queryId = none)
    (h5tr : fitsCoins o5.totalReward) (h5as : fitsCoins o5.amountToSwap)
    (h5l : fitsCoins o5.limit) (h5d : fitsUint o5.deadline 32)
    (h5tt : fitsCoins o5.tonTargetBalance) (h5jt : fitsCoins o5.jettonTargetBalance)
    (h5df : fitsCoins o5.depositFee) (h5dw : fitsCoins o5.depositFwdFee)
    (h5tf : fitsCoins o5.transferFee)
    (o6 : SetStrategyAddressOpts) (hn6 : o6.queryId = none)
    (o7 : WithdrawManagementFeeOpts) (hn7 : o7.queryId = none) (h7a : fitsCoins o7.amount)
    (o8 : SetIsLockedOpts) (hn8 : o8.queryId = none) (h8il : fitsUint o8.isLocked 1)
    (o9 : SetManagementFeeRateOpts) (hn9 : o9.queryId = none)
    (h9r : fitsUint o9.managementFeeRate 16) :
    (isOk (TonJettonTonStrategy.sendReinvest o1) = true ∧
      sliceUint (refBits (TonJettonTonStrategy.sendReinvest o1)) 32 64 = 0) ∧
    (isOk (TonJettonTonStrategy.sendSetJettonWalletAddress o2) = true ∧
      sliceUint (bodyBits (TonJettonTonStrategy.sendSetJettonWalletAddress o2)) 32 64 = 0) ∧
    (isOk (TonJettonTonStrategy.sendSetDepositLpWalletAddress o3) = true ∧
      sliceUint (bodyBits (TonJettonTonStrategy.sendSetDepositLpWalletAddress o3)) 32 64 = 0) ∧
    (isOk (Vault.sendDepositNotification o4) = true ∧
      sliceUint (bodyBits (Vault.sendDepositNotification o4)) 32 64 = 0) ∧
    (isOk (Vault.sendReinvest o5) = true ∧
      sliceUint (bodyBits (Vault.sendReinvest o5)) 32 64 = 0) ∧
    (isOk (Vault.sendSetStrategyAddress o6) = true ∧
      sliceUint (bodyBits (Vault.sendSetStrategyAddress o6)) 32 64 = 0) ∧
    (isOk (Vault.sendWithdrawManagementFee o7) = true ∧
      sliceUint (bodyBits (Vault.sendWithdrawManagementFee o7)) 32 64 = 0) ∧
    (isOk (Vault.sendSetIsLocked o8) = true ∧
      sliceUint (bodyBits (Vault.sendSetIsLocked o8)) 32 64 = 0) ∧
    (isOk (Vault.sendSetManagementFeeRate o9) = true ∧
      sliceUint (bodyBits (Vault.sendSetManagementFeeRate o9)) 32 64 = 0) := by
  have h1q : fitsUint (o1.queryId.getD 0) 64 := by rw [hn1]; decide
  have h2q : fitsUint (o2.queryId.getD 0) 64 := by rw [hn2]; decide
  have h3q : fitsUint (o3.queryId.getD 0) 64 := by rw [hn3]; decide
  have h4q : fitsUint (o4.queryId.getD 0) 64 := by rw [hn4]; decide
  have h5q : fitsUint (o5.queryId.getD 0) 64 := by rw [hn5]; decide
  have h6q : fitsUint (o6.queryId.getD 0) 64 := by rw [hn6]; decide
  have h7q : fitsUint (o7.queryId.getD 0) 64 := by rw [hn7]; decide
  have h8q : fitsUint (o8.queryId.getD 0) 64 := by rw [hn8]; decide
  have h9q : fitsUint (o9.queryId.getD 0) 64 := by rw [hn9]; decide
  rw [strategy_sendReinvest_shape o1 h1q h1tr h1as h1l h1d h1tt h1jt,
      sendSetJettonWalletAddress_shape o2 h2q,
      sendSetDepositLpWalletAddress_shape o3 h3q,
      sendDepositNotification_shape o4 h4q h4a,
      vault_sendReinvest_shape o5 h5q h5tr h5as h5l h5d h5tt h5jt h5df h5dw h5tf,
      sendSetStrategyAddress_shape o6 h6q,
      sendWithdrawManagementFee_shape o7 h7q h7a,
      sendSetIsLocked_shape o8 h8q h8il,
      sendSetManagementFeeRate_shape o9 h9q h9r]
  simp only [isOk, bodyBits, refBits, firstRefBits, Cell.refs, Cell.bits, List.headD,
    hn1, hn2, hn3, hn4, hn5, hn6, hn7, hn8, hn9, Option.getD_none, Int.toNat_zero]
  refine ⟨⟨trivial, ?_⟩, ⟨trivial, ?_⟩, ⟨trivial, ?_⟩, ⟨trivial, ?_⟩, ⟨trivial, ?_⟩,
    ⟨trivial, ?_⟩, ⟨trivial, ?_⟩, ⟨trivial, ?_⟩, ⟨trivial, ?_⟩⟩
  all_goals exact sliceUint_at _ _ 0 64 32 (natToBits_length _ _) (by decide)

/-- C5 witness: the strategy's reinvest child cell at an all-zero options
record with an omitted query id carries a zero query-id field. -/
theorem C5_witness :
    isOk (TonJettonTonStrategy.sendReinvest ⟨0, 0, 0, 0, 0, 0, 0, none⟩) = true ∧
    sliceUint (refBits (TonJettonTonStrategy.sendReinvest ⟨0, 0, 0, 0, 0, 0, 0, none⟩)) 32 64 = 0 :=
  (C5_query_id_default ⟨0, 0, 0, 0, 0, 0, 0, none⟩ rfl (by decide) (by decide) (by decide)
    (by decide) (by decide) (by decide)
    ⟨0, ⟨0, 0⟩, none⟩ rfl
    ⟨0, ⟨0, 0⟩, none⟩ rfl
    ⟨0, ⟨0, 0⟩, 0, none⟩ rfl (by decide)
    ⟨0, 0, 0, 0, 0, 0, 0, 0, 0, 0, none⟩ rfl (by decide) (by decide) (by decide) (by decide)
    (by decide) (by decide) (by decide) (by decide) (by decide)
    ⟨0, ⟨0, 0⟩, none⟩ rfl
    ⟨0, ⟨0, 0⟩, 0, none⟩ rfl (by decide)
    ⟨0, 0, none⟩ rfl (by decide)
    ⟨0, 0, none⟩ rfl (by decide)).1
